import Mathlib

/-!
Verification of the Electronics Store backend (`main.py`) against its
specification.

The development shallowly embeds the request handlers of `main.py`:

* documents of the `product` collection are Lean structures (`Doc`);
* the Mongo store is a `Store`: an association list of (ObjectId, document)
  pairs plus a counter generating fresh ids, and a `failing` flag modelling
  whether store calls raise an exception on this state;
* `db : Option Store` mirrors the module-level `db` handle, `none` standing
  for `db is None` (store unavailable);
* Python floats are modelled as rationals (`ℚ`); every price handled by the
  program is an exact decimal, and only order/equality of prices matters;
* BSON ObjectIds are modelled as natural numbers below 16^24 whose canonical
  string form is 24 lowercase hex digits, matching `str(ObjectId)` and the
  `ObjectId(stringform)` parse;
* a handler that raises `HTTPException(code, detail)` — or lets an exception
  escape, which the HTTP framework reports as a 500 — returns
  `.error ⟨code, detail⟩`; normal returns are `.ok`.

`database.py` and `schemas.py` belong to the repository but are not part of
the provided sources; the definitions marked `Modelled from the spec:` embed
them from the specification text.
-/

/-- A stored document of the `product` collection.  `description`, `image`
and `in_stock` may be absent from a raw document (`doc.get` returns the
default), hence `Option`. -/
structure Doc where
  title : String
  description : Option String
  price : ℚ
  category : String
  in_stock : Option Bool
  image : Option String
deriving Repr, DecidableEq

/-- The product collection: documents keyed by their ObjectId value, a
counter supplying fresh ids, and a flag saying whether store calls raise an
exception on this state. -/
structure Store where
  docs : List (ℕ × Doc)
  nextId : ℕ
  failing : Bool
deriving Repr, DecidableEq

/-- Store wellformedness: the fresh-id counter fits in an ObjectId (24 hex
digits) and dominates every id already in the collection. -/
def Store.WF (s : Store) : Prop :=
  s.nextId < 16 ^ 24 ∧ ∀ pr ∈ s.docs, pr.1 < s.nextId

/-- An `HTTPException(status_code, detail)` (or an escaped exception, which
the framework turns into a 500 response). -/
structure HErr where
  status : ℕ
  detail : String
deriving Repr, DecidableEq

/-! ### ObjectId strings

`str(ObjectId)` is 24 lowercase hex digits; `ObjectId(s)` succeeds exactly
when `s` is a 24-character hex string. -/

/-- The lowercase hex digit for a value `0 ≤ n < 16`. -/
def hexChar (n : ℕ) : Char :=
  if n < 10 then Char.ofNat (48 + n) else Char.ofNat (87 + n)

/-- The value of a hex digit character (either case), `none` otherwise. -/
def hexCharVal (c : Char) : Option ℕ :=
  if 48 ≤ c.toNat ∧ c.toNat ≤ 57 then some (c.toNat - 48)
  else if 97 ≤ c.toNat ∧ c.toNat ≤ 102 then some (c.toNat - 87)
  else if 65 ≤ c.toNat ∧ c.toNat ≤ 70 then some (c.toNat - 55)
  else none

/-- The `k` low hex digits of `n`, most significant first. -/
def toHexDigits : ℕ → ℕ → List Char
  | _, 0 => []
  | n, k + 1 => toHexDigits (n / 16) k ++ [hexChar (n % 16)]

/-- The canonical 24-hex-digit string form of an ObjectId value. -/
def natToHex24 (n : ℕ) : String :=
  ⟨toHexDigits n 24⟩

/-- Left fold accumulating the value of a hex digit string. -/
def parseHexGo : ℕ → List Char → Option ℕ
  | acc, [] => some acc
  | acc, c :: cs =>
    match hexCharVal c with
    | none => none
    | some v => parseHexGo (16 * acc + v) cs

/-- `ObjectId(product_id)`: succeeds exactly on 24-character hex strings,
yielding the encoded value. -/
def parseObjectId (s : String) : Option ℕ :=
  if s.data.length = 24 then parseHexGo 0 s.data else none

/-! ### Schema types (`main.py` lines 22–32) -/

/-- The raw JSON body of a create request, before pydantic applies the
`in_stock` default (`none` = field omitted). -/
structure RawPayload where
  title : String
  description : Option String
  price : ℚ
  category : String
  in_stock : Option Bool
  image : Option String
deriving Repr, DecidableEq

/-- `ProductIn` after pydantic parsing: `in_stock` defaulted to `True`. -/
structure ProductIn where
  title : String
  description : Option String
  price : ℚ
  category : String
  in_stock : Bool
  image : Option String
deriving Repr, DecidableEq

/-- `ProductOut`: `ProductIn` plus the string `id`. -/
structure ProductOut where
  id : String
  title : String
  description : Option String
  price : ℚ
  category : String
  in_stock : Bool
  image : Option String
deriving Repr, DecidableEq

/-- Pydantic validation of `ProductIn` (`main.py` lines 22–28): the only
constraint beyond the field types is `price ≥ 0` (`Field(..., ge=0)`); the
`in_stock` default `True` is applied when the field is omitted.  Modelled
from the spec: the HTTP framework reports a request-body validation failure
as status 400 naming the offending field (framework code is external to the
repository). -/
def parseProductIn (p : RawPayload) : Except HErr ProductIn :=
  if p.price < 0 then .error ⟨400, "price"⟩
  else .ok ⟨p.title, p.description, p.price, p.category, p.in_stock.getD true, p.image⟩

/-- Modelled from the spec: `schemas.Product` (`schemas.py` is not among the
provided sources).  Section 4.2: `title` and `category` are non-empty
strings, `price ≥ 0`; fails with a `ValidationError` naming the first
offending field (surfaced as 400 with field detail). -/
def productSchemaCheck (p : ProductIn) : Except HErr Unit :=
  if p.title = "" then .error ⟨400, "title"⟩
  else if p.price < 0 then .error ⟨400, "price"⟩
  else if p.category = "" then .error ⟨400, "category"⟩
  else .ok ()

/-- The document written by `create_document("product", payload.model_dump())`:
`model_dump` materialises every field, including the defaulted `in_stock`. -/
def docOfProductIn (p : ProductIn) : Doc :=
  ⟨p.title, p.description, p.price, p.category, some p.in_stock, p.image⟩

/-! ### Filters (`main.py` lines 145–156) -/

/-- The `filt` dict built by `list_products`: an absent key is `none`.  The
two price bounds together stand for the `price` sub-document (`$gte`,
`$lte`); both `none` means the `price` key is absent, which matches all
documents just as an empty bound set would. -/
structure StoreFilter where
  title_regex : Option String
  category : Option String
  price_gte : Option ℚ
  price_lte : Option ℚ
deriving Repr, DecidableEq

/-- Python truthiness of an optional string (`if q:`): present and
non-empty. -/
def truthyStr : Option String → Bool
  | none => false
  | some s => !(s == "")

/-- The filter construction of `list_products` (`main.py` 145–156): `q` and
`category` are added under a truthiness test, the price bounds under an
`is not None` test. -/
def buildFilter (q category : Option String) (min_price max_price : Option ℚ) : StoreFilter :=
  { title_regex := if truthyStr q then q else none
    category := if truthyStr category then category else none
    price_gte := min_price
    price_lte := max_price }

/-- Case-insensitive substring containment, lowercasing both sides
character-wise. -/
def substrCI (pat s : String) : Bool :=
  decide ((pat.data.map Char.toLower) <:+: (s.data.map Char.toLower))

/-- Check an optional filter clause: an absent key constrains nothing. -/
def optCheck {α} : Option α → (α → Bool) → Bool
  | none, _ => true
  | some a, f => f a

/-- Modelled from the spec: the document store's filter semantics (the store
is an external collaborator).  Section 4.1: a `$regex`/`$options:"i"` clause
on `title` matches case-insensitively as a substring; `category` is exact
equality; `$gte`/`$lte` bound the price inclusively; absent keys constrain
nothing. -/
def filterMatches (f : StoreFilter) (d : Doc) : Bool :=
  optCheck f.title_regex (fun p => substrCI p d.title) &&
  optCheck f.category (fun c => d.category == c) &&
  optCheck f.price_gte (fun m => decide (m ≤ d.price)) &&
  optCheck f.price_lte (fun m => decide (d.price ≤ m))

/-! ### Store client (`database.py`, not among the provided sources) -/

/-- Modelled from the spec: `database.create_document` — the store client's
`insert(collection, doc) -> id` (section 2); the returned id is the new
document's ObjectId in canonical string form.  A store exception (modelled
by `failing`) escapes to the caller. -/
def create_document (s : Store) (d : Doc) : Except HErr (String × Store) :=
  if s.failing then .error ⟨500, "Internal Server Error"⟩
  else .ok (natToHex24 s.nextId, ⟨s.docs ++ [(s.nextId, d)], s.nextId + 1, s.failing⟩)

/-- Modelled from the spec: `database.get_documents` — the store client's
`find(collection, filter)` (section 2); per section 7, store-level
exceptions during listing are caught and converted to empty results. -/
def get_documents (s : Store) (f : StoreFilter) : List (ℕ × Doc) :=
  if s.failing then [] else s.docs.filter fun pr => filterMatches f pr.2

/-- `db["product"].distinct("category")` — a raw driver call (external
collaborator): the distinct category values of the collection; a store
exception escapes to the caller, which the framework reports as a 500. -/
def distinct_category (s : Store) : Except HErr (List String) :=
  if s.failing then .error ⟨500, "Internal Server Error"⟩
  else .ok ((s.docs.map fun pr => pr.2.category).dedup)

/-- `db["product"].find_one({"_id": oid})` — first document with the given
id, if any. -/
def find_one (s : Store) (oid : ℕ) : Option (ℕ × Doc) :=
  s.docs.find? fun pr => pr.1 == oid

/-! ### Serialization (`main.py` lines 37–46) -/

/-- `serialize_product`: direct field copy; `id` is the canonical string
form of the stored `_id`; a missing `in_stock` serializes as `True`
(`doc.get("in_stock", True)`). -/
def serialize_product (oid : ℕ) (d : Doc) : ProductOut :=
  { id := natToHex24 oid
    title := d.title
    description := d.description
    price := d.price
    category := d.category
    in_stock := d.in_stock.getD true
    image := d.image }

/-! ### String ordering

Python `sorted` on strings is ascending code-point lexicographic order;
`charListLe` is that order on the character lists. -/

/-- Code-point lexicographic `≤` on character lists. -/
def charListLe : List Char → List Char → Bool
  | [], _ => true
  | _ :: _, [] => false
  | a :: as, b :: bs =>
    if a.toNat < b.toNat then true
    else if b.toNat < a.toNat then false
    else charListLe as bs

/-- Case-sensitive lexicographic `≤` on strings, as Python `sorted` uses. -/
def strLe (a b : String) : Prop :=
  charListLe a.data b.data = true

instance : DecidableRel strLe := fun a b => by
  unfold strLe
  infer_instance

/-! ### Request handlers (`main.py` lines 141–189) -/

/-- `GET /api/products` (`main.py` 141–159).  `db is None` yields `[]`;
otherwise the filter is built, the store queried through the client, and
each document serialized.  The handler itself never raises. -/
def list_products (db : Option Store) (q category : Option String)
    (min_price max_price : Option ℚ) : Except HErr (List ProductOut) :=
  match db with
  | none => .ok []
  | some s =>
    .ok ((get_documents s (buildFilter q category min_price max_price)).map
      fun pr => serialize_product pr.1 pr.2)

/-- `GET /api/products/{product_id}` (`main.py` 162–173), paired with the
store state after the call.  `db is None` → 503; unparseable id → 400; the
raw `find_one` call may raise (`failing`, reported as 500 by the
framework); no match → 404; otherwise the serialized product. -/
def get_product (db : Option Store) (product_id : String) :
    Except HErr ProductOut × Option Store :=
  match db with
  | none => (.error ⟨503, "Database unavailable"⟩, none)
  | some s =>
    match parseObjectId product_id with
    | none => (.error ⟨400, "Invalid product id"⟩, some s)
    | some oid =>
      if s.failing then (.error ⟨500, "Internal Server Error"⟩, some s)
      else
        match find_one s oid with
        | none => (.error ⟨404, "Product not found"⟩, some s)
        | some pr => (.ok (serialize_product pr.1 pr.2), some s)

/-- The validation run by `create_product`: pydantic parsing of the body
into `ProductIn`, then `ProductSchema(**payload.model_dump())`. -/
def validateCreate (p : RawPayload) : Except HErr ProductIn :=
  match parseProductIn p with
  | .error e => .error e
  | .ok pin =>
    match productSchemaCheck pin with
    | .error e => .error e
    | .ok _ => .ok pin

/-- `POST /api/products` (`main.py` 176–181), paired with the store state
after the call: validate, then insert through the store client, returning
the new id. -/
def create_product (db : Option Store) (payload : RawPayload) :
    Except HErr String × Option Store :=
  match validateCreate payload with
  | .error e => (.error e, db)
  | .ok pin =>
    match db with
    | none => (.error ⟨500, "Internal Server Error"⟩, none)
    | some s =>
      match create_document s (docOfProductIn pin) with
      | .error e => (.error e, some s)
      | .ok (id, s2) => (.ok id, some s2)

/-- `GET /api/categories` (`main.py` 184–189): `db is None` yields `[]`;
otherwise `sorted([c for c in cats if c])` over the raw `distinct` call,
whose exception escapes the handler (there is no try/except around it). -/
def list_categories (db : Option Store) : Except HErr (List String) :=
  match db with
  | none => .ok []
  | some s =>
    match distinct_category s with
    | .error e => .error e
    | .ok cats => .ok (List.insertionSort strLe (cats.filter fun c => !(c == "")))

/-! ### Seeder (`main.py` lines 93–138) -/

/-- The literal sample products inserted by `seed_products`. -/
def sampleDocs : List Doc :=
  [ { title := "Smartphone X200"
      description := some "6.5\" OLED, 128GB, Dual Camera"
      price := 699
      category := "Phones"
      in_stock := some true
      image := some "https://images.unsplash.com/photo-1511707171634-5f897ff02aa9?q=80&w=800&auto=format&fit=crop" },
    { title := "Noise-Canceling Headphones"
      description := some "Over-ear, 30h battery, Bluetooth 5.2"
      price := 199
      category := "Audio"
      in_stock := some true
      image := some "https://images.unsplash.com/photo-1518441902119-52ab42fb52fb?q=80&w=800&auto=format&fit=crop" },
    { title := "4K Ultra HD TV 55\""
      description := some "55-inch, HDR10+, Smart TV"
      price := 499
      category := "TVs"
      in_stock := some true
      image := some "https://images.unsplash.com/photo-1593359677879-74010a5d13b6?q=80&w=800&auto=format&fit=crop" },
    { title := "Gaming Laptop G15"
      description := some "RTX 4060, 16GB RAM, 1TB SSD"
      price := 1499
      category := "Computers"
      in_stock := some true
      image := some "https://images.unsplash.com/photo-1517336714731-489689fd1ca8?q=80&w=800&auto=format&fit=crop" } ]

/-- Insert a list of documents through the store client in order, as the
seeding loop does; an error from an insert leaves the remaining state as
it was (the surrounding try/except swallows it). -/
def insertAll (s : Store) : List Doc → Store
  | [] => s
  | d :: ds =>
    match create_document s d with
    | .error _ => s
    | .ok (_, s2) => insertAll s2 ds

/-- `seed_products` (`main.py` 93–138): no-op when `db is None`; counts the
collection and, when the count is 0, inserts the four `sampleDocs` in
order; every store exception is swallowed by the surrounding try/except
(a `failing` store raises on `count_documents` and is left unchanged). -/
def seed_products (db : Option Store) : Option Store :=
  match db with
  | none => none
  | some s =>
    if s.failing then some s
    else if s.docs.length = 0 then some (insertAll s sampleDocs)
    else some s

/-! ### Helper lemmas -/

theorem hexCharVal_hexChar : ∀ m : ℕ, m < 16 → hexCharVal (hexChar m) = some m := by
  decide

theorem parseHexGo_append (l₁ l₂ : List Char) : ∀ acc : ℕ,
    parseHexGo acc (l₁ ++ l₂) =
      match parseHexGo acc l₁ with
      | none => none
      | some a => parseHexGo a l₂ := by
  induction l₁ with
  | nil => intro acc; rfl
  | cons c cs ih =>
    intro acc
    simp only [List.cons_append, parseHexGo]
    cases hexCharVal c with
    | none => rfl
    | some v => exact ih _

theorem parseHexGo_toHexDigits : ∀ (k n acc : ℕ), n < 16 ^ k →
    parseHexGo acc (toHexDigits n k) = some (acc * 16 ^ k + n) := by
  intro k
  induction k with
  | zero => intro n acc h; interval_cases n; simp [toHexDigits, parseHexGo]
  | succ k ih =>
    intro n acc h
    have hdiv : n / 16 < 16 ^ k := by
      rw [Nat.div_lt_iff_lt_mul (by norm_num)]
      calc n < 16 ^ (k + 1) := h
        _ = 16 ^ k * 16 := by ring
    simp only [toHexDigits, parseHexGo_append, ih (n / 16) acc hdiv]
    simp only [parseHexGo, hexCharVal_hexChar (n % 16) (Nat.mod_lt n (by norm_num))]
    congr 1
    have : n = 16 * (n / 16) + n % 16 := (Nat.div_add_mod n 16).symm
    calc 16 * (acc * 16 ^ k + n / 16) + n % 16
        = acc * (16 ^ k * 16) + (16 * (n / 16) + n % 16) := by ring
      _ = acc * 16 ^ (k + 1) + n := by rw [← this]; ring

theorem length_toHexDigits : ∀ (k n : ℕ), (toHexDigits n k).length = k := by
  intro k
  induction k with
  | zero => intro n; rfl
  | succ k ih => intro n; simp [toHexDigits, ih]

/-- Round trip: the canonical string of an ObjectId value parses back to it. -/
theorem parseObjectId_natToHex24 (n : ℕ) (h : n < 16 ^ 24) :
    parseObjectId (natToHex24 n) = some n := by
  have hlen : (toHexDigits n 24).length = 24 := length_toHexDigits 24 n
  unfold parseObjectId natToHex24
  rw [if_pos hlen]
  simpa using parseHexGo_toHexDigits 24 n 0 h

theorem find?_append_of_none {α} (l₁ l₂ : List α) (p : α → Bool)
    (h : ∀ x ∈ l₁, p x = false) : (l₁ ++ l₂).find? p = l₂.find? p := by
  induction l₁ with
  | nil => rfl
  | cons a as ih =>
    simp only [List.cons_append, List.find?]
    rw [h a (by simp)]
    exact ih fun x hx => h x (by simp [hx])

/-! ### Claim theorems -/

/-- C9: `GET /api/products/{id}` never modifies the store: for every store
state and every path id — in particular a malformed id (400) and a
well-formed but absent id (404) — the store state after the call equals the
state before it. -/
theorem C9_get_product_frame (db : Option Store) (pid : String) :
    (get_product db pid).2 = db := by
  unfold get_product
  cases db with
  | none => rfl
  | some s =>
    cases parseObjectId pid with
    | none => rfl
    | some oid =>
      by_cases hf : s.failing
      · simp [hf]
      · simp only [hf, if_false, Bool.false_eq_true]
        cases find_one s oid <;> rfl

/-- C10: in `GET /api/products`, an empty-string `q` or an empty-string
`category` is treated exactly like an absent parameter (the handler tests
truthiness, not presence): the built filter equals the one built with the
parameter omitted. -/
theorem C10_empty_param_like_absent (q c : Option String) (mn mx : Option ℚ) :
    buildFilter (some "") c mn mx = buildFilter none c mn mx ∧
    buildFilter q (some "") mn mx = buildFilter q none mn mx := by
  constructor <;> simp [buildFilter, truthyStr]

/-- C4: for every create payload with `price < 0`, `POST /api/products`
fails with the validation error naming the `price` field as a 400, and the
store state is unchanged (no document is inserted). -/
theorem C4_create_negative_price (db : Option Store) (p : RawPayload)
    (h : p.price < 0) :
    create_product db p = (.error ⟨400, "price"⟩, db) := by
  unfold create_product validateCreate parseProductIn
  rw [if_pos h]

/-- Witness for C4 at a concrete negative-price payload. -/
theorem C4_witness :
    create_product none (⟨"X", none, -1, "C", none, none⟩ : RawPayload) =
      (.error ⟨400, "price"⟩, none) :=
  C4_create_negative_price none ⟨"X", none, -1, "C", none, none⟩ (by decide)

/-- C6: status cascade of `GET /api/products/{id}` over store states whose
calls do not raise: store unavailable (`db is None`) → 503; id not
parseable as an ObjectId → 400; no document with that id → 404; otherwise
the serialized product is returned. -/
theorem C6_get_product_status (s : Store) (pid : String)
    (hfail : s.failing = false) :
    (get_product none pid).1 = .error ⟨503, "Database unavailable"⟩ ∧
    (parseObjectId pid = none →
      (get_product (some s) pid).1 = .error ⟨400, "Invalid product id"⟩) ∧
    (∀ oid, parseObjectId pid = some oid → find_one s oid = none →
      (get_product (some s) pid).1 = .error ⟨404, "Product not found"⟩) ∧
    (∀ oid pr, parseObjectId pid = some oid → find_one s oid = some pr →
      (get_product (some s) pid).1 = .ok (serialize_product pr.1 pr.2)) := by
  refine ⟨rfl, ?_, ?_, ?_⟩
  · intro h
    unfold get_product
    rw [h]
  · intro oid h hf
    unfold get_product
    rw [h]
    simp [hfail, hf]
  · intro oid pr h hf
    unfold get_product
    rw [h]
    simp [hfail, hf]

/-- Witness for C6: the 503, 400 and 404 branches at concrete inputs. -/
theorem C6_witness :
    (get_product none "zz").1 = .error ⟨503, "Database unavailable"⟩ ∧
    (get_product (some ⟨[], 0, false⟩) "zz").1 = .error ⟨400, "Invalid product id"⟩ ∧
    (get_product (some ⟨[], 0, false⟩) "000000000000000000000005").1 =
      .error ⟨404, "Product not found"⟩ :=
  ⟨(C6_get_product_status ⟨[], 0, false⟩ "zz" rfl).1,
   (C6_get_product_status ⟨[], 0, false⟩ "zz" rfl).2.1 (by decide),
   (C6_get_product_status ⟨[], 0, false⟩ "000000000000000000000005" rfl).2.2.1 5
     (by decide) (by decide)⟩

theorem optCheck_eq_true_iff {α} (o : Option α) (f : α → Bool) :
    optCheck o f = true ↔ ∀ a, o = some a → f a = true := by
  cases o <;> simp [optCheck]

theorem substrCI_empty (s : String) : substrCI "" s = true := by
  simp [substrCI, List.nil_infix]

/-- The filter predicate exactly as claim C2 states it: substring match on
`title` whenever `text_query` is present, exact equality on `category`
whenever `category` is present, and inclusive price bounds on whichever
bounds are given. -/
def specFilterPred (q category : Option String) (mn mx : Option ℚ) (d : Doc) : Prop :=
  (∀ qs, q = some qs → substrCI qs d.title = true) ∧
  (∀ c, category = some c → d.category = c) ∧
  (∀ m, mn = some m → m ≤ d.price) ∧
  (∀ m, mx = some m → d.price ≤ m)

/-- C2 counterexample: with `category` present as the empty string, the
filter built by `list_products` matches a document whose category is
`"Audio"`, while the predicate claimed in C2 (exact equality on category
whenever the parameter is present) rejects that document. -/
theorem C2_counterexample :
    filterMatches (buildFilter none (some "") none none)
        ⟨"T", none, 10, "Audio", some true, none⟩ = true ∧
      ¬ specFilterPred none (some "") none none
        ⟨"T", none, 10, "Audio", some true, none⟩ := by
  refine ⟨by decide, fun h => ?_⟩
  exact absurd (h.2.1 "" rfl) (by decide)

/-- C2 amended: the filter built by `GET /api/products` is the logical AND
of: case-insensitive substring match on title when `text_query` is present,
exact equality on category when `category` is present AND non-empty, and
price within the inclusive interval on whichever bounds are given; with no
parameters it matches all documents.  (An empty `text_query` needs no such
amendment: the empty string is a substring of every title.) -/
theorem C2_filter_semantics (q category : Option String) (mn mx : Option ℚ) (d : Doc) :
    filterMatches (buildFilter q category mn mx) d = true ↔
      ((∀ qs, q = some qs → substrCI qs d.title = true) ∧
       (∀ c, category = some c → c ≠ "" → d.category = c) ∧
       (∀ m, mn = some m → m ≤ d.price) ∧
       (∀ m, mx = some m → d.price ≤ m)) := by
  unfold filterMatches buildFilter
  simp only [Bool.and_eq_true, optCheck_eq_true_iff, decide_eq_true_eq, beq_iff_eq,
    and_assoc]
  constructor
  · rintro ⟨h1, h2, h3, h4⟩
    refine ⟨?_, ?_, h3, h4⟩
    · rintro qs rfl
      by_cases hq : qs = ""
      · subst hq
        exact substrCI_empty _
      · exact h1 qs (by simp [truthyStr, hq])
    · rintro c rfl hc
      exact h2 c (by simp [truthyStr, hc])
  · rintro ⟨h1, h2, h3, h4⟩
    refine ⟨?_, ?_, h3, h4⟩
    · intro a ha
      rcases q with _ | qs
      · simp [truthyStr] at ha
      · by_cases hq : qs = ""
        · simp [truthyStr, hq] at ha
        · simp [truthyStr, hq] at ha
          exact ha ▸ h1 qs rfl
    · intro a ha
      rcases category with _ | c
      · simp [truthyStr] at ha
      · by_cases hc : c = ""
        · simp [truthyStr, hc] at ha
        · simp [truthyStr, hc] at ha
          exact ha ▸ h2 c rfl hc

/-- Closed form of the validation run by `create_product`: the pydantic
`price ≥ 0` check, then the schema checks in field order. -/
theorem validateCreate_eq (p : RawPayload) :
    validateCreate p =
      if p.price < 0 then .error ⟨400, "price"⟩
      else if p.title = "" then .error ⟨400, "title"⟩
      else if p.category = "" then .error ⟨400, "category"⟩
      else .ok ⟨p.title, p.description, p.price, p.category,
        p.in_stock.getD true, p.image⟩ := by
  unfold validateCreate parseProductIn productSchemaCheck
  by_cases hpr : p.price < 0
  · simp [hpr]
  · by_cases ht : p.title = "" <;> by_cases hc : p.category = "" <;> simp [hpr, ht, hc]

/-- C5: a create payload whose `title` or `category` is the empty string
never passes validation; when the empty field is the first violated
constraint in validation order, the error names exactly that field; and a
payload accepted by validation has non-empty `title` and `category`. -/
theorem C5_validate_nonempty (p : RawPayload) :
    ((p.title = "" ∨ p.category = "") → ∃ e : HErr, validateCreate p = .error e) ∧
    (p.title = "" → 0 ≤ p.price → validateCreate p = .error ⟨400, "title"⟩) ∧
    (p.title ≠ "" → p.category = "" → 0 ≤ p.price →
      validateCreate p = .error ⟨400, "category"⟩) ∧
    (∀ pin, validateCreate p = .ok pin → p.title ≠ "" ∧ p.category ≠ "") := by
  rw [validateCreate_eq]
  by_cases hpr : p.price < 0
  · rw [if_pos hpr]
    exact ⟨fun _ => ⟨_, rfl⟩, fun _ h0 => absurd hpr (not_lt.mpr h0),
      fun _ _ h0 => absurd hpr (not_lt.mpr h0), fun pin h => Except.noConfusion h⟩
  · rw [if_neg hpr]
    by_cases ht : p.title = ""
    · rw [if_pos ht]
      exact ⟨fun _ => ⟨_, rfl⟩, fun _ _ => rfl, fun hne => absurd ht hne,
        fun pin h => Except.noConfusion h⟩
    · rw [if_neg ht]
      by_cases hc : p.category = ""
      · rw [if_pos hc]
        exact ⟨fun _ => ⟨_, rfl⟩, fun h0 _ => absurd h0 ht, fun _ _ _ => rfl,
          fun pin h => Except.noConfusion h⟩
      · rw [if_neg hc]
        exact ⟨fun hor => hor.elim (fun h => absurd h ht) (fun h => absurd h hc),
          fun h0 _ => absurd h0 ht, fun _ h0 _ => absurd h0 hc,
          fun pin _ => ⟨ht, hc⟩⟩

/-- Witness for C5 at concrete empty-title and empty-category payloads. -/
theorem C5_witness :
    validateCreate (⟨"", none, 5, "Audio", none, none⟩ : RawPayload) =
      .error ⟨400, "title"⟩ ∧
    validateCreate (⟨"TV", none, 5, "", none, none⟩ : RawPayload) =
      .error ⟨400, "category"⟩ :=
  ⟨(C5_validate_nonempty ⟨"", none, 5, "Audio", none, none⟩).2.1 rfl (by decide),
   (C5_validate_nonempty ⟨"TV", none, 5, "", none, none⟩).2.2.1 (by decide) rfl
     (by decide)⟩

/-- C3 counterexample: a store-level exception raised by the `distinct`
call while handling `GET /api/categories` is not converted to an empty
result — it propagates out of the handler (an HTTP 500), contradicting the
claim that such exceptions are always caught. -/
theorem C3_counterexample :
    list_categories (some ⟨[], 0, true⟩) = .error ⟨500, "Internal Server Error"⟩ ∧
    list_categories (some ⟨[], 0, true⟩) ≠ .ok [] := by
  refine ⟨rfl, fun h => ?_⟩
  exact Except.noConfusion h

/-- C3 amended: store unavailability (`db is None`) yields an empty result
for both `GET /api/products` and `GET /api/categories`; a store-level
exception during `GET /api/products` is caught in the store client and
converted to an empty result; but a store-level exception raised by the
`distinct` call of `GET /api/categories` is not caught and propagates as an
HTTP error. -/
theorem C3_list_availability (s : Store) (q c : Option String) (mn mx : Option ℚ)
    (hfail : s.failing = true) :
    list_products none q c mn mx = .ok [] ∧
    list_categories none = .ok [] ∧
    list_products (some s) q c mn mx = .ok [] ∧
    list_categories (some s) = .error ⟨500, "Internal Server Error"⟩ := by
  refine ⟨rfl, rfl, ?_, ?_⟩
  · simp [list_products, get_documents, hfail]
  · simp [list_categories, distinct_category, hfail]

/-- Witness for C3 (amended) at a concrete failing store. -/
theorem C3_witness :
    list_products (some ⟨[], 0, true⟩) none none none none = .ok [] ∧
    list_categories (some ⟨[], 0, true⟩) = .error ⟨500, "Internal Server Error"⟩ :=
  ⟨(C3_list_availability ⟨[], 0, true⟩ none none none none rfl).2.2.1,
   (C3_list_availability ⟨[], 0, true⟩ none none none none rfl).2.2.2⟩

theorem charListLe_total : ∀ a b : List Char, charListLe a b = true ∨ charListLe b a = true := by
  intro a
  induction a with
  | nil => intro b; left; rfl
  | cons x xs ih =>
    intro b
    cases b with
    | nil => right; rfl
    | cons y ys =>
      by_cases h1 : x.toNat < y.toNat
      · left
        simp [charListLe, h1]
      · by_cases h2 : y.toNat < x.toNat
        · right
          simp [charListLe, h2]
        · rcases ih ys with h | h
          · left
            simp [charListLe, h1, h2, h]
          · right
            simp [charListLe, h1, h2, h]

theorem charListLe_trans : ∀ a b c : List Char,
    charListLe a b = true → charListLe b c = true → charListLe a c = true := by
  intro a
  induction a with
  | nil => intro b c _ _; rfl
  | cons x xs ih =>
    intro b c hab hbc
    cases b with
    | nil => simp [charListLe] at hab
    | cons y ys =>
      cases c with
      | nil => simp [charListLe] at hbc
      | cons z zs =>
        by_cases hxy : x.toNat < y.toNat <;> by_cases hyx : y.toNat < x.toNat <;>
          by_cases hyz : y.toNat < z.toNat <;> by_cases hzy : z.toNat < y.toNat <;>
            simp [charListLe, hxy, hyx, hyz, hzy] at hab hbc ⊢ <;>
              first
                | omega
                | (constructor <;> omega)
                | (exact Or.inr ⟨by omega, ih ys zs hab hbc⟩)

instance : IsTotal String strLe :=
  ⟨fun a b => charListLe_total a.data b.data⟩

instance : IsTrans String strLe :=
  ⟨fun a b c => charListLe_trans a.data b.data c.data⟩

/-- C8: for every store state whose calls do not raise, `GET
/api/categories` returns exactly the distinct non-empty category values of
the collection, sorted ascending in case-sensitive (code-point) lexical
order with no duplicates; and, the handler being a pure read of the store
(it performs no write), a repeated call on the unchanged store returns the
same list. -/
theorem C8_list_categories (s : Store) (hfail : s.failing = false) :
    ∃ l, list_categories (some s) = .ok l ∧
      l.Sorted strLe ∧ l.Nodup ∧
      (∀ c, c ∈ l ↔ (c ≠ "" ∧ ∃ pr ∈ s.docs, pr.2.category = c)) ∧
      list_categories (some s) = .ok l := by
  refine ⟨List.insertionSort strLe
      (((s.docs.map fun pr => pr.2.category).dedup).filter fun c => !(c == "")),
    ?_, ?_, ?_, ?_, ?_⟩
  · simp [list_categories, distinct_category, hfail]
  · exact List.sorted_insertionSort strLe _
  · exact (List.perm_insertionSort strLe _).nodup_iff.mpr
      ((List.nodup_dedup _).filter _)
  · intro c
    rw [(List.perm_insertionSort strLe _).mem_iff, List.mem_filter]
    simp only [List.mem_dedup, List.mem_map, Bool.not_eq_eq_eq_not, Bool.not_true,
      beq_eq_false_iff_ne, ne_eq]
    constructor
    · rintro ⟨⟨pr, hpr, rfl⟩, hne⟩
      exact ⟨hne, pr, hpr, rfl⟩
    · rintro ⟨hne, pr, hpr, rfl⟩
      exact ⟨⟨pr, hpr, rfl⟩, hne⟩
  · simp [list_categories, distinct_category, hfail]

/-- Witness for C8 at a concrete two-document store with a duplicate and an
empty category. -/
theorem C8_witness :
    ∃ l, list_categories (some ⟨[(0, ⟨"A", none, 1, "Phones", none, none⟩),
        (1, ⟨"B", none, 2, "", none, none⟩),
        (2, ⟨"C", none, 3, "Phones", none, none⟩)], 3, false⟩) = .ok l ∧
      l.Sorted strLe ∧ l.Nodup ∧
      (∀ c, c ∈ l ↔ (c ≠ "" ∧ ∃ pr ∈ [(0, (⟨"A", none, 1, "Phones", none, none⟩ : Doc)),
        (1, ⟨"B", none, 2, "", none, none⟩),
        (2, ⟨"C", none, 3, "Phones", none, none⟩)], pr.2.category = c)) ∧
      list_categories (some ⟨[(0, ⟨"A", none, 1, "Phones", none, none⟩),
        (1, ⟨"B", none, 2, "", none, none⟩),
        (2, ⟨"C", none, 3, "Phones", none, none⟩)], 3, false⟩) = .ok l :=
  C8_list_categories _ rfl

/-- C7: the seeding routine inserts only when the product collection count
is 0 — a store with documents is left unchanged — and any store error
during seeding is swallowed (a failing store is returned unchanged, no
exception escapes); seeding an empty store appends exactly the four literal
sample products, in order, under consecutive fresh ids; and after seeding
the empty store, `GET /api/products` returns exactly those four products,
serialized, in insertion order. -/
theorem C7_seed (s : Store) :
    (s.docs ≠ [] → seed_products (some s) = some s) ∧
    (s.failing = true → seed_products (some s) = some s) ∧
    (∀ n, ∃ d0 d1 d2 d3, sampleDocs = [d0, d1, d2, d3] ∧
      seed_products (some ⟨[], n, false⟩) =
        some ⟨[(n, d0), (n + 1, d1), (n + 2, d2), (n + 3, d3)], n + 4, false⟩ ∧
      list_products (seed_products (some ⟨[], n, false⟩)) none none none none =
        .ok [serialize_product n d0, serialize_product (n + 1) d1,
          serialize_product (n + 2) d2, serialize_product (n + 3) d3]) := by
  refine ⟨?_, ?_, ?_⟩
  · intro h
    unfold seed_products
    have : s.docs.length ≠ 0 := fun hl => h (List.length_eq_zero.mp hl)
    by_cases hf : s.failing
    · simp [hf]
    · simp [hf, this]
  · intro h
    simp [seed_products, h]
  · intro n
    refine ⟨_, _, _, _, rfl, rfl, ?_⟩
    rfl

/-- Witness for C7: a non-empty store and a failing store, both left
unchanged by seeding. -/
theorem C7_witness :
    seed_products (some ⟨[(0, ⟨"T", none, 1, "C", none, none⟩)], 1, false⟩) =
      some ⟨[(0, ⟨"T", none, 1, "C", none, none⟩)], 1, false⟩ ∧
    seed_products (some ⟨[], 0, true⟩) = some ⟨[], 0, true⟩ :=
  ⟨(C7_seed ⟨[(0, ⟨"T", none, 1, "C", none, none⟩)], 1, false⟩).1 (by decide),
   (C7_seed ⟨[], 0, true⟩).2.1 rfl⟩

theorem get_product_found (s : Store) (pid : String) (oid : ℕ) (pr : ℕ × Doc)
    (hfail : s.failing = false) (hp : parseObjectId pid = some oid)
    (hf : find_one s oid = some pr) :
    (get_product (some s) pid).1 = .ok (serialize_product pr.1 pr.2) := by
  unfold get_product
  rw [hp]
  simp [hfail, hf]

/-- C1: for every valid create payload (non-empty title and category,
`price ≥ 0`) and every wellformed non-raising store, `POST /api/products`
succeeds with an id, and `GET /api/products/{id}` with that id returns a
Product whose title, description, price, category, `in_stock` and image
equal the input, `in_stock` defaulting to `true` when it was omitted from
the payload. -/
theorem C1_create_then_fetch (s : Store) (p : RawPayload)
    (hwf : s.WF) (hfail : s.failing = false)
    (htitle : p.title ≠ "") (hcat : p.category ≠ "") (hprice : 0 ≤ p.price) :
    ∃ id s2, create_product (some s) p = (.ok id, some s2) ∧
      (get_product (some s2) id).1 = .ok
        { id := id
          title := p.title
          description := p.description
          price := p.price
          category := p.category
          in_stock := p.in_stock.getD true
          image := p.image } := by
  have hv : validateCreate p = .ok ⟨p.title, p.description, p.price, p.category,
      p.in_stock.getD true, p.image⟩ := by
    rw [validateCreate_eq, if_neg (not_lt.mpr hprice), if_neg htitle, if_neg hcat]
  refine ⟨natToHex24 s.nextId,
    ⟨s.docs ++ [(s.nextId, ⟨p.title, p.description, p.price, p.category,
      some (p.in_stock.getD true), p.image⟩)], s.nextId + 1, s.failing⟩, ?_, ?_⟩
  · unfold create_product
    rw [hv]
    simp [create_document, docOfProductIn, hfail]
  · have hnone : ∀ x ∈ s.docs, (fun pr : ℕ × Doc => pr.1 == s.nextId) x = false := by
      intro x hx
      exact beq_eq_false_iff_ne.mpr (Nat.ne_of_lt (hwf.2 x hx))
    have hfind : find_one ⟨s.docs ++ [(s.nextId, ⟨p.title, p.description, p.price,
        p.category, some (p.in_stock.getD true), p.image⟩)], s.nextId + 1, s.failing⟩
          s.nextId =
        some (s.nextId, ⟨p.title, p.description, p.price, p.category,
          some (p.in_stock.getD true), p.image⟩) := by
      unfold find_one
      rw [find?_append_of_none _ _ _ hnone]
      simp [List.find?]
    have hg := get_product_found
      ⟨s.docs ++ [(s.nextId, ⟨p.title, p.description, p.price, p.category,
        some (p.in_stock.getD true), p.image⟩)], s.nextId + 1, s.failing⟩
      (natToHex24 s.nextId) s.nextId
      (s.nextId, ⟨p.title, p.description, p.price, p.category,
        some (p.in_stock.getD true), p.image⟩)
      hfail (parseObjectId_natToHex24 s.nextId hwf.1) hfind
    exact hg.trans rfl

/-- Witness for C1: the creation scenario of the spec (an `"Earbuds"`
payload with omitted optional fields) against the empty store. -/
theorem C1_witness :
    ∃ id s2, create_product (some ⟨[], 0, false⟩)
        (⟨"Earbuds", none, 49, "Audio", none, none⟩ : RawPayload) =
          (.ok id, some s2) ∧
      (get_product (some s2) id).1 = .ok
        { id := id
          title := "Earbuds"
          description := none
          price := 49
          category := "Audio"
          in_stock := true
          image := none } :=
  C1_create_then_fetch ⟨[], 0, false⟩ ⟨"Earbuds", none, 49, "Audio", none, none⟩
    ⟨by decide, by simp⟩ rfl (by decide) (by decide) (by decide)
